import Mathlib

/-!
Shallow embedding of the ticket/query analysis pipeline of src/server.py
(CAST Ticket Analyzer).  Remote I/O (Zendesk HTTP calls, DuckDuckGo search,
OpenAI completion) is modelled by injecting each upstream outcome as an
explicit input: an HTTP call that raises is an Except.error value, a
DuckDuckGo call that raises is Option.none, and the generative provider is
an AiOutcome value.  Everything downstream of those injection points is a
direct translation of the Python source.
-/

/-- Models Python ASCII letter matching for the regex class [A-Za-z]. -/
def isAsciiAlpha (c : Char) : Bool :=
  (('a' ≤ c) && (c ≤ 'z')) || (('A' ≤ c) && (c ≤ 'Z'))

/-- Models the regex class [A-Za-z0-9_] used in extract_keywords. -/
def isWordChar (c : Char) : Bool :=
  isAsciiAlpha c || (('0' ≤ c) && (c ≤ '9')) || (c = '_')

/-- Fuel-driven scan implementing re.findall of the pattern
[A-Za-z][A-Za-z0-9_]\x7b3,\x7d (server.py line 68): at each ASCII letter the
greedy match takes the maximal following run of word characters; the match
succeeds iff that run has length at least 3, and scanning resumes after the
consumed run.  Each step consumes at least one character, so fuel equal to
the input length (as supplied by findall_words) never runs out. -/
def findall_aux : Nat → List Char → List String
  | _, [] => []
  | 0, _ :: _ => []
  | fuel + 1, c :: rest =>
    if isAsciiAlpha c then
      let run := rest.takeWhile isWordChar
      if 3 ≤ run.length then
        String.mk (c :: run) :: findall_aux fuel (rest.dropWhile isWordChar)
      else
        findall_aux fuel rest
    else
      findall_aux fuel rest

/-- The token list produced by the regex scan of extract_keywords. -/
def findall_words (l : List Char) : List String :=
  findall_aux l.length l

/-- Models Python str.lower() on a single character.  All strings the pipeline
lowercases or compares case-insensitively are ASCII (regex tokens and the
stop-list), where str.lower() is exactly ASCII lowering. -/
def lowerChar (c : Char) : Char :=
  if (('A' ≤ c) && (c ≤ 'Z')) then Char.ofNat (c.toNat + 32) else c

/-- Models Python str.lower() (see lowerChar). -/
def str_lower (s : String) : String := String.mk (s.data.map lowerChar)

/-- Models Python str.strip(): removes leading and trailing whitespace. -/
def str_strip (s : String) : String :=
  String.mk (((s.data.dropWhile Char.isWhitespace).reverse.dropWhile
    Char.isWhitespace).reverse)

/-- The stop-list of extract_keywords (server.py line 69). -/
def blacklist : List String :=
  ["error", "issue", "problem", "unable", "failed", "ticket", "please"]

/-- The keyword list computed by extract_keywords before the final join
(server.py lines 67-73): tokens from the regex scan, stop-list words removed
case-insensitively, sentinel CAST when nothing remains, truncation to
max_words. -/
def extract_keywords_list (text : String) (max_words : Nat) : List String :=
  let words := findall_words text.data
  let keywords := words.filter (fun w => !(blacklist.contains (str_lower w)))
  let keywords := if keywords.isEmpty then ["CAST"] else keywords
  keywords.take max_words

/-- extract_keywords (server.py lines 67-73); the Python function returns the
keywords joined with single spaces. -/
def extract_keywords (text : String) (max_words : Nat := 8) : String :=
  String.intercalate " " (extract_keywords_list text max_words)

/-- Models Python round(x, 2) (server.py lines 153 and 168).  Every value the
pipeline rounds is an exact multiple of 1/100, so tie-breaking behaviour is
immaterial. -/
def round2 (x : ℚ) : ℚ := ((⌊x * 100 + 1/2⌋ : ℤ) : ℚ) / 100

/-- A comment object from the Zendesk comments endpoint; c.get with default
empty string makes plain_body effectively optional (server.py line 86). -/
structure ZComment where
  plain_body : Option String
deriving DecidableEq

/-- A result object from the Zendesk search endpoint: the id key is accessed
unconditionally, description through .get with default (server.py lines
100-101). -/
structure ZSearchResult where
  id : Int
  description : Option String
deriving DecidableEq

/-- An entry of the related_tickets list (server.py line 101). -/
structure RelatedTicket where
  id : Int
  url : String
  comment : String
deriving DecidableEq

/-- A raw DuckDuckGo search hit: title and body are read with .get defaults,
href with .get and no default (server.py line 113). -/
structure DdgResult where
  title : Option String
  href : Option String
  body : Option String
deriving DecidableEq

/-- An entry of the related_docs list (server.py lines 113 and 118-121). -/
structure RelatedDoc where
  title : String
  url : Option String
  comment : String
deriving DecidableEq

/-- Outcome of the OpenAI integration inside ai_analyze (server.py lines
126-145): no configured key, a successful completion with the returned
message content, or a raised exception with its message. -/
inductive AiOutcome
  | noClient
  | ok (text : String)
  | failed (err : String)
deriving DecidableEq

/-- Whether a generative provider key is configured, i.e. whether ai_analyze
obtains a client and issues an outbound completion call. -/
def AiOutcome.hasClient : AiOutcome → Bool
  | .noClient => false
  | _ => true

/-- The summary/resolution pair returned by ai_analyze. -/
structure AiResult where
  summary : String
  resolution : String
deriving DecidableEq

/-- Splits a character list around the first occurrence of pat: returns the
part before the match and the part after it, or none when pat does not
occur.  Used to model the two re.search calls of ai_analyze. -/
def split_once (pat : List Char) : List Char → Option (List Char × List Char)
  | [] => if (List.isPrefixOf pat []) then some ([], []) else none
  | c :: rest =>
    if (List.isPrefixOf pat (c :: rest)) then
      some ([], List.drop pat.length (c :: rest))
    else
      match split_once pat rest with
      | some (pre, post) => some (c :: pre, post)
      | none => none

/-- Group 1 of re.search applied to the pattern
Summary:(.*?)(Resolution:|$) with re.S (server.py line 140), then stripped;
when the pattern does not match, ai_analyze falls back to the whole text
(server.py line 142). -/
def ai_parse_summary (text : String) : String :=
  match split_once ("Summary:".data) text.data with
  | none => text
  | some (_, rest) =>
    match split_once ("Resolution:".data) rest with
    | none => str_strip (String.mk rest)
    | some (pre, _) => str_strip (String.mk pre)

/-- Group 1 of re.search applied to the pattern Resolution:(.*) with re.S
(server.py line 141), then stripped; empty string when absent (line 143). -/
def ai_parse_resolution (text : String) : String :=
  match split_once ("Resolution:".data) text.data with
  | none => ""
  | some (_, rest) => str_strip (String.mk rest)

/-- ai_analyze (server.py lines 126-145): with no client a fixed skipped
marker; on exception a fixed failed marker carrying the error text; on
success the stripped completion content split into summary and resolution
sections. -/
def ai_analyze : AiOutcome → AiResult
  | .noClient => { summary := "[AI analysis skipped]", resolution := "" }
  | .failed e => { summary := "[AI analysis failed]", resolution := e }
  | .ok raw =>
    let text := str_strip raw
    { summary := ai_parse_summary text, resolution := ai_parse_resolution text }

/-- The agent ticket URL interpolated at server.py lines 101 and 158. -/
def ticket_url (subdomain : String) (id : Int) : String :=
  "https://" ++ subdomain ++ ".zendesk.com/agent/tickets/" ++ toString id

/-- get_ticket_comments (server.py lines 80-86): an HTTP failure raises
(raise_for_status) and propagates; on success the plain bodies are joined
with newlines. -/
def get_ticket_comments (outcome : Except String (List ZComment)) :
    Except String String :=
  match outcome with
  | .error e => .error e
  | .ok cs =>
    .ok (String.intercalate "\n" (cs.map (fun c => c.plain_body.getD "")))

/-- Fuel-driven scan implementing Python str.split() with no separator
(server.py lines 89 and 164): split on whitespace runs, discarding empties.
Fuel equal to the input length (as supplied by split_ws) never runs out. -/
def split_ws_aux : Nat → List Char → List String
  | _, [] => []
  | 0, _ :: _ => []
  | fuel + 1, c :: rest =>
    if c.isWhitespace then
      split_ws_aux fuel rest
    else
      let run := rest.takeWhile (fun ch => !(ch.isWhitespace))
      String.mk (c :: run) ::
        split_ws_aux fuel (rest.dropWhile (fun ch => !(ch.isWhitespace)))

/-- Python query.split() (see split_ws_aux). -/
def split_ws (s : String) : List String := split_ws_aux s.data.length s.data

/-- The Zendesk search query string built at server.py lines 89-90, with the
CAST fallback when the split produces no keywords. -/
def zendesk_query (query : String) : String :=
  let keywords := match split_ws query with
    | [] => ["CAST"]
    | ks => ks
  "type:ticket status:solved (" ++ String.intercalate " OR " keywords ++ ")"

/-- The accumulation loop of search_related_tickets (server.py lines
98-103): count is the length of the related list built so far; entries whose
id equals the requested ticket id are skipped, and the loop breaks once the
list reaches three entries. -/
def collect_related (subdomain : String) (ticket_id : Int) :
    List ZSearchResult → Nat → List RelatedTicket
  | [], _ => []
  | t :: rest, count =>
    if t.id ≠ ticket_id then
      let entry : RelatedTicket :=
        { id := t.id, url := ticket_url subdomain t.id,
          comment := t.description.getD "" }
      if count + 1 = 3 then [entry]
      else entry :: collect_related subdomain ticket_id rest (count + 1)
    else
      collect_related subdomain ticket_id rest count

/-- The related list search_related_tickets assembles from the upstream
search results (server.py lines 97-103). -/
def related_from_results (subdomain : String) (results : List ZSearchResult)
    (ticket_id : Int) : List RelatedTicket :=
  collect_related subdomain ticket_id results 0

/-- search_related_tickets (server.py lines 88-103): builds the search query,
issues the HTTP call (whose outcome is injected; raise_for_status propagates
failures), and reduces the results. -/
def search_related_tickets (subdomain : String) (query : String)
    (ticket_id : Int) (outcome : Except String (List ZSearchResult)) :
    Except String (List RelatedTicket) :=
  let _zq := zendesk_query query
  match outcome with
  | .error e => .error e
  | .ok results => .ok (related_from_results subdomain results ticket_id)

/-- The fixed fallback documentation list (server.py lines 118-122). -/
def fallback_docs : List RelatedDoc :=
  [{ title := "CAST AIP Documentation Home",
     url := some "https://doc.castsoftware.com/", comment := "" },
   { title := "CAST AIP Knowledge Base",
     url := some "https://doc.castsoftware.com/kb/", comment := "" },
   { title := "CAST AIP Troubleshooting Guide",
     url := some "https://doc.castsoftware.com/troubleshoot/", comment := "" }]

/-- The DuckDuckGo query string built at server.py lines 107-108. -/
def ddg_query (query : String) : String :=
  let q := if str_strip query = "" then "CAST AIP" else str_strip query
  "CAST AIP " ++ q ++ " site:doc.castsoftware.com"

/-- search_cast_docs (server.py lines 105-124): the DDGS outcome is injected
(none when the search raised, caught at lines 114-115, leaving docs empty);
an empty docs list is extended with the first three fallback entries, and
the result is truncated to three. -/
def search_cast_docs (query : String) (outcome : Option (List DdgResult)) :
    List RelatedDoc :=
  let _q := ddg_query query
  let docs : List RelatedDoc :=
    match outcome with
    | none => []
    | some results =>
      results.map (fun r =>
        { title := r.title.getD "Untitled", url := r.href,
          comment := r.body.getD "" })
  let docs := if docs.isEmpty then docs ++ fallback_docs.take 3 else docs
  docs.take 3

/-- The injected upstream outcomes consumed by one analyze_ticket run. -/
structure AnalyzeInputs where
  commentsOutcome : Except String (List ZComment)
  searchOutcome : Except String (List ZSearchResult)
  ddgsOutcome : Option (List DdgResult)
  aiOutcome : AiOutcome

/-- The payload assembled by analyze_ticket (server.py lines 154-161). -/
structure AnalyzeResult where
  summary : String
  recommended_solution : String
  confidence : ℚ
  primary_ticket_id : Int
  related_tickets : List RelatedTicket
  related_docs : List RelatedDoc
deriving DecidableEq

/-- analyze_ticket (server.py lines 147-161): comments are fetched (a raised
HTTP error propagates), keywords extracted, related tickets searched (a
raised HTTP error propagates), docs searched, the AI summary computed, and
the confidence derived from the related ticket count. -/
def analyze_ticket (subdomain : String) (ticket_id : Int)
    (inp : AnalyzeInputs) : Except String AnalyzeResult :=
  match get_ticket_comments inp.commentsOutcome with
  | .error e => .error e
  | .ok comments =>
    let keywords := extract_keywords comments
    match search_related_tickets subdomain keywords ticket_id
        inp.searchOutcome with
    | .error e => .error e
    | .ok related_tickets =>
      let docs := search_cast_docs keywords inp.ddgsOutcome
      let ai_result := ai_analyze inp.aiOutcome
      let confidence :=
        round2 (min ((2 : ℚ)/5 + (related_tickets.length : ℚ) * (3/20))
          (9/10))
      .ok { summary := ai_result.summary
            recommended_solution := ai_result.resolution
            confidence := confidence
            primary_ticket_id := ticket_id
            related_tickets := related_tickets
            related_docs := docs }

/-- The injected upstream outcomes consumed by one search_text run. -/
structure SearchInputs where
  searchOutcome : Except String (List ZSearchResult)
  ddgsOutcome : Option (List DdgResult)
  aiOutcome : AiOutcome

/-- The payload assembled by search_text (server.py lines 169-176). -/
structure TextSearchResult where
  query : String
  summary : String
  recommended_solution : String
  confidence : ℚ
  related_tickets : List RelatedTicket
  related_docs : List RelatedDoc
deriving DecidableEq

/-- search_text (server.py lines 163-176): the keywords binding at line 164
is computed and never used (kept here verbatim); the raw query is passed to
the related-ticket search with ticket id -1 and to the doc search. -/
def search_text (subdomain : String) (query : String) (inp : SearchInputs) :
    Except String TextSearchResult :=
  let _keywords := match split_ws query with
    | [] => ["CAST"]
    | ks => ks
  match search_related_tickets subdomain query (-1) inp.searchOutcome with
  | .error e => .error e
  | .ok related_tickets =>
    let docs := search_cast_docs query inp.ddgsOutcome
    let ai_result := ai_analyze inp.aiOutcome
    let confidence :=
      round2 (min ((2 : ℚ)/5 + (related_tickets.length : ℚ) * (3/20)) (9/10))
    .ok { query := query
          summary := ai_result.summary
          recommended_solution := ai_result.resolution
          confidence := confidence
          related_tickets := related_tickets
          related_docs := docs }

/-- An HTTP response payload of the two POST routes: the normal schema or
the error-shaped object built in the except branches (server.py lines
179-195).  The overall asyncio timeout branch is wall-clock behaviour and is
outside this embedding. -/
inductive Response (α : Type)
  | ok (result : α)
  | error (msg : String)
deriving DecidableEq

/-- Whether a route response has the normal (non-error) shape. -/
def Response.isOk {α : Type} : Response α → Bool
  | .ok _ => true
  | .error _ => false

/-- The POST /ticket/details route (server.py lines 179-186): any exception
raised inside analyze_ticket is caught and converted to an error object. -/
def ticket_details (subdomain : String) (ticket_id : Int)
    (inp : AnalyzeInputs) : Response AnalyzeResult :=
  match analyze_ticket subdomain ticket_id inp with
  | .ok r => .ok r
  | .error e => .error e

/-- The POST /ticket/search route (server.py lines 188-195). -/
def ticket_search (subdomain : String) (query : String) (inp : SearchInputs) :
    Response TextSearchResult :=
  match search_text subdomain query inp with
  | .ok r => .ok r
  | .error e => .error e

/-- An outbound adapter call issued by the pipeline: the Zendesk comments
fetch, the Zendesk ticket search, the DuckDuckGo documentation search, or
the OpenAI completion. -/
inductive AdapterCall
  | ticketComments (ticket_id : Int)
  | ticketSearch (query : String)
  | docSearch (query : String)
  | summarize (context : String)
deriving DecidableEq

/-- The sequence of outbound adapter calls issued by one analyze_ticket run
(server.py lines 147-152): the comments fetch always happens first; a raised
HTTP error stops the pipeline before later calls; the DuckDuckGo call is
always attempted; the OpenAI call happens only when a key is configured. -/
def analyze_ticket_calls (ticket_id : Int) (inp : AnalyzeInputs) :
    List AdapterCall :=
  AdapterCall.ticketComments ticket_id ::
    match get_ticket_comments inp.commentsOutcome with
    | .error _ => []
    | .ok comments =>
      let keywords := extract_keywords comments
      AdapterCall.ticketSearch (zendesk_query keywords) ::
        match inp.searchOutcome with
        | .error _ => []
        | .ok _ =>
          AdapterCall.docSearch (ddg_query keywords) ::
            (if inp.aiOutcome.hasClient then
              [AdapterCall.summarize ("TICKET COMMENTS:\n" ++ comments)]
            else [])

/-- The sequence of outbound adapter calls issued by one search_text run
(server.py lines 163-167): the ticket search always happens first, with the
raw query. -/
def search_text_calls (query : String) (inp : SearchInputs) :
    List AdapterCall :=
  AdapterCall.ticketSearch (zendesk_query query) ::
    match inp.searchOutcome with
    | .error _ => []
    | .ok _ =>
      AdapterCall.docSearch (ddg_query query) ::
        (if inp.aiOutcome.hasClient then
          [AdapterCall.summarize ("Search query:\n" ++ query)]
        else [])

/-- Projects the summary field of a completed analysis. -/
def summary_of : Except String AnalyzeResult → Option String
  | .ok r => some r.summary
  | .error _ => none

/-- Projects the confidence field of a completed analysis. -/
def confidence_of : Except String AnalyzeResult → Option ℚ
  | .ok r => some r.confidence
  | .error _ => none

/-- Projects the confidence field of a completed text search. -/
def tconfidence_of : Except String TextSearchResult → Option ℚ
  | .ok r => some r.confidence
  | .error _ => none

/-- Projects the related_tickets field of a completed analysis. -/
def related_tickets_of : Except String AnalyzeResult → Option (List RelatedTicket)
  | .ok r => some r.related_tickets
  | .error _ => none

/-- Projects the related_docs field of a completed analysis. -/
def related_docs_of : Except String AnalyzeResult → Option (List RelatedDoc)
  | .ok r => some r.related_docs
  | .error _ => none

/-! Helper lemmas. -/

/-- round2 is the identity on exact multiples of 1/100. -/
lemma round2_exact (n : ℤ) : round2 ((n : ℚ)/100) = (n : ℚ)/100 := by
  have h : (n : ℚ)/100 * 100 + 1/2 = (n : ℚ) + 1/2 := by ring
  have hhalf : ⌊(1 : ℚ)/2⌋ = 0 := by
    rw [Int.floor_eq_zero_iff]
    constructor <;> norm_num
  have hf : ⌊(n : ℚ)/100 * 100 + 1/2⌋ = n := by
    rw [h, Int.floor_int_add, hhalf, add_zero]
  unfold round2
  rw [hf]

/-- The rounded confidence equals the unrounded min expression for every
related-ticket count: all values the formula can take are exact multiples of
1/100. -/
lemma round2_confidence (k : ℕ) :
    round2 (min ((2:ℚ)/5 + (k : ℚ) * (3/20)) (9/10))
      = min ((2:ℚ)/5 + (k : ℚ) * (3/20)) (9/10) := by
  rcases le_or_lt (k : ℚ) 3 with h | h
  · rw [min_eq_left (by linarith)]
    have hv : (2:ℚ)/5 + (k : ℚ) * (3/20) = (((40 + 15 * k : ℕ) : ℤ) : ℚ)/100 := by
      push_cast
      ring
    rw [hv, round2_exact]
  · have h4 : (4 : ℚ) ≤ (k : ℚ) := by
      have : 4 ≤ k := by exact_mod_cast h
      exact_mod_cast this
    rw [min_eq_right (by linarith)]
    have hv : (9:ℚ)/10 = (((90 : ℕ) : ℤ) : ℚ)/100 := by norm_num
    rw [hv, round2_exact]

/-- Concrete confidence value for zero related tickets. -/
lemma round2_val0 :
    round2 (min ((2:ℚ)/5 + ((0:ℕ) : ℚ) * (3/20)) (9/10)) = 2/5 := by
  rw [round2_confidence, min_eq_left (by norm_num)]
  norm_num

/-- Concrete confidence value for one related ticket. -/
lemma round2_val1 :
    round2 (min ((2:ℚ)/5 + ((1:ℕ) : ℚ) * (3/20)) (9/10)) = 11/20 := by
  rw [round2_confidence, min_eq_left (by norm_num)]
  norm_num

/-- Concrete confidence value for two related tickets. -/
lemma round2_val2 :
    round2 (min ((2:ℚ)/5 + ((2:ℕ) : ℚ) * (3/20)) (9/10)) = 7/10 := by
  rw [round2_confidence, min_eq_left (by norm_num)]
  norm_num

/-- Concrete confidence value for three related tickets. -/
lemma round2_val3 :
    round2 (min ((2:ℚ)/5 + ((3:ℕ) : ℚ) * (3/20)) (9/10)) = 17/20 := by
  rw [round2_confidence, min_eq_left (by norm_num)]
  norm_num

/-- Every token produced by the regex scan has length at least 4: one letter
followed by a word-character run of length at least 3. -/
lemma findall_aux_length : ∀ (fuel : Nat) (l : List Char) (w : String),
    w ∈ findall_aux fuel l → 4 ≤ w.length := by
  intro fuel
  induction fuel with
  | zero =>
    intro l w hw
    cases l <;> simp [findall_aux] at hw
  | succ fuel ih =>
    intro l w hw
    cases l with
    | nil => simp [findall_aux] at hw
    | cons c rest =>
      simp only [findall_aux] at hw
      by_cases h1 : isAsciiAlpha c
      · rw [if_pos h1] at hw
        by_cases h2 : 3 ≤ (rest.takeWhile isWordChar).length
        · rw [if_pos h2] at hw
          rcases List.mem_cons.mp hw with rfl | hw2
          · show 4 ≤ (List.length (c :: rest.takeWhile isWordChar))
            simp only [List.length_cons]
            omega
          · exact ih _ _ hw2
        · rw [if_neg h2] at hw
          exact ih _ _ hw
      · rw [if_neg h1] at hw
        exact ih _ _ hw

/-- Length bound for the related-ticket accumulation loop: starting below
the cap, the loop adds at most 3 - count entries. -/
lemma collect_related_length (s : String) (tid : Int) :
    ∀ (res : List ZSearchResult) (count : Nat), count < 3 →
      (collect_related s tid res count).length ≤ 3 - count := by
  intro res
  induction res with
  | nil =>
    intro count _
    simp [collect_related]
  | cons t rest ih =>
    intro count hc
    simp only [collect_related]
    split
    · split
      · simp only [List.length_cons, List.length_nil]
        omega
      · rename_i h3
        simp only [List.length_cons]
        have := ih (count + 1) (by omega)
        omega
    · exact ih count hc

/-- The related-tickets list never exceeds three entries. -/
lemma related_from_results_length (s : String) (res : List ZSearchResult)
    (tid : Int) : (related_from_results s res tid).length ≤ 3 := by
  have := collect_related_length s tid res 0 (by omega)
  simpa [related_from_results] using this

/-- Every entry kept by the accumulation loop has an id different from the
requested ticket id. -/
lemma collect_related_ne (s : String) (tid : Int) :
    ∀ (res : List ZSearchResult) (count : Nat),
      (collect_related s tid res count).all (fun t => t.id != tid) = true := by
  intro res
  induction res with
  | nil => intro count; rfl
  | cons t rest ih =>
    intro count
    simp only [collect_related]
    split
    · rename_i hne
      split
      · simp [bne_iff_ne, hne]
      · simp [bne_iff_ne, hne, ih (count + 1)]
    · exact ih count

/-- The related-docs list never exceeds three entries. -/
lemma search_cast_docs_length (q : String) (o : Option (List DdgResult)) :
    (search_cast_docs q o).length ≤ 3 := by
  simp only [search_cast_docs]
  split <;> exact List.length_take_le 3 _


/-! Claim theorems. -/

/-- Claim C1: for every request that completes normally, in either mode, the
confidence equals min(0.4 + relatedTicketCount * 0.15, 0.9) for the related
tickets found, and that value lies in the closed interval [0, 0.9] whatever
the number of related items. -/
theorem claim_c1_confidence_formula :
    (∀ (s : String) (tid : Int) (cs : List ZComment)
       (res : List ZSearchResult) (ddg : Option (List DdgResult))
       (ai : AiOutcome),
       confidence_of (analyze_ticket s tid ⟨.ok cs, .ok res, ddg, ai⟩)
         = some (min ((2:ℚ)/5
             + ((related_from_results s res tid).length : ℚ) * (3/20))
             (9/10)))
  ∧ (∀ (s query : String) (res : List ZSearchResult)
       (ddg : Option (List DdgResult)) (ai : AiOutcome),
       tconfidence_of (search_text s query ⟨.ok res, ddg, ai⟩)
         = some (min ((2:ℚ)/5
             + ((related_from_results s res (-1)).length : ℚ) * (3/20))
             (9/10)))
  ∧ (∀ (s : String) (res : List ZSearchResult) (tid : Int),
       0 ≤ min ((2:ℚ)/5
           + ((related_from_results s res tid).length : ℚ) * (3/20)) (9/10)
       ∧ min ((2:ℚ)/5
           + ((related_from_results s res tid).length : ℚ) * (3/20)) (9/10)
           ≤ 9/10) := by
  refine ⟨fun s tid cs res ddg ai => ?_, fun s query res ddg ai => ?_,
    fun s res tid => ⟨le_min (by positivity) (by norm_num), min_le_right _ _⟩⟩
  · have hred : confidence_of (analyze_ticket s tid ⟨.ok cs, .ok res, ddg, ai⟩)
        = some (round2 (min ((2:ℚ)/5
            + ((related_from_results s res tid).length : ℚ) * (3/20))
            (9/10))) := rfl
    rw [hred, round2_confidence]
  · have hred : tconfidence_of (search_text s query ⟨.ok res, ddg, ai⟩)
        = some (round2 (min ((2:ℚ)/5
            + ((related_from_results s res (-1)).length : ℚ) * (3/20))
            (9/10))) := rfl
    rw [hred, round2_confidence]

/-- Claim C2: in ticket-id mode the requested ticket id never appears among
the entries of the related-tickets list of the assembled result, whatever
the upstream search returned. -/
theorem claim_c2_self_exclusion :
    ∀ (s : String) (tid : Int) (inp : AnalyzeInputs),
      ((related_tickets_of (analyze_ticket s tid inp)).getD []).all
        (fun t => t.id != tid) = true := by
  intro s tid inp
  rcases inp with ⟨co, so, ddg, ai⟩
  rcases co with e | cs
  · rfl
  · rcases so with e | res
    · rfl
    · have hred : related_tickets_of
          (analyze_ticket s tid ⟨.ok cs, .ok res, ddg, ai⟩)
          = some (related_from_results s res tid) := rfl
      rw [hred]
      exact collect_related_ne s tid res 0

/-- Claim C3 counterexample: the code performs no deduplication.  Two
upstream search results with the same id both enter the related-tickets
list, and two DuckDuckGo hits with the same url both enter the related-docs
list. -/
theorem claim_c3_counterexample :
    ((related_from_results "d" [⟨1, some "a"⟩, ⟨1, some "a"⟩] 0).map
      RelatedTicket.id = [1, 1])
  ∧ (decide (((related_from_results "d" [⟨1, some "a"⟩, ⟨1, some "a"⟩] 0).map
      RelatedTicket.id).Nodup) = false)
  ∧ ((search_cast_docs "q"
      (some [⟨some "T", some "u", some "b"⟩, ⟨some "T", some "u", some "b"⟩])).map
      RelatedDoc.url = [some "u", some "u"])
  ∧ (decide (((search_cast_docs "q"
      (some [⟨some "T", some "u", some "b"⟩, ⟨some "T", some "u", some "b"⟩])).map
      RelatedDoc.url).Nodup) = false) := by
  exact ⟨rfl, by decide, rfl, by decide⟩

/-- Claim C3 as amended: the related-tickets and related-docs lists never
exceed the cap of 3 entries, for any upstream input; deduplication by
identity key, however, is not performed (see the counterexample). -/
theorem claim_c3_amended_caps :
    (∀ (s : String) (res : List ZSearchResult) (tid : Int),
       (related_from_results s res tid).length ≤ 3)
  ∧ (∀ (q : String) (o : Option (List DdgResult)),
       (search_cast_docs q o).length ≤ 3) :=
  ⟨related_from_results_length, search_cast_docs_length⟩

/-- Claim C4: when the DuckDuckGo document search raises (the provider is
unavailable), the assembled related-docs list is exactly the fixed fallback
list of canonical documentation entry points, which is non-empty. -/
theorem claim_c4_doc_fallback :
    (∀ (q : String), search_cast_docs q none = fallback_docs)
  ∧ 0 < fallback_docs.length
  ∧ (∀ (s : String) (tid : Int) (cs : List ZComment)
       (res : List ZSearchResult) (ai : AiOutcome),
       related_docs_of (analyze_ticket s tid ⟨.ok cs, .ok res, none, ai⟩)
         = some fallback_docs) :=
  ⟨fun _ => rfl, by decide, fun _ _ _ _ _ => rfl⟩

/-- Claim C5: whenever the keyword scan plus stop-list filtering yields no
keywords, extract_keywords returns exactly the single sentinel token CAST,
never an empty keyword set. -/
theorem claim_c5_default_sentinel : ∀ (text : String),
    (findall_words text.data).filter
      (fun w => !(blacklist.contains (str_lower w))) = [] →
    extract_keywords_list text 8 = ["CAST"] ∧ extract_keywords text 8 = "CAST" := by
  intro text h
  have h1 : extract_keywords_list text 8 = ["CAST"] := by
    simp only [extract_keywords_list, h]
    rfl
  refine ⟨h1, ?_⟩
  rw [extract_keywords, h1]
  rfl

/-- Witness for C5 at the empty string with maxWords 8. -/
theorem claim_c5_default_sentinel_witness :
    ((findall_words ("" : String).data).filter
      (fun w => !(blacklist.contains (str_lower w))) = [])
  ∧ (extract_keywords_list "" 8 = ["CAST"] ∧ extract_keywords "" 8 = "CAST") :=
  ⟨rfl, claim_c5_default_sentinel "" rfl⟩

/-- Claim C6 counterexample: extract_keywords neither lowercases the kept
tokens nor removes duplicates: the input with two occurrences of the word
Data yields the token Data twice, in its original case. -/
theorem claim_c6_counterexample :
    extract_keywords_list "Data Data" 8 = ["Data", "Data"]
  ∧ (decide ((("Data" : String) = str_lower "Data")) = false)
  ∧ (decide (((["Data", "Data"] : List String).map str_lower).Nodup) = false) := by
  exact ⟨by decide, by decide, by decide⟩

/-- Claim C6 as amended: the keyword list preserves insertion order (it is a
sublist of the regex token scan, or the sentinel), each token has length at
least 4, the stop-list is applied case-insensitively, and the list is capped
at max_words; tokens keep their original case and duplicates are retained
(see the counterexample). -/
theorem claim_c6_amended : ∀ (text : String) (mw : Nat),
    ((extract_keywords_list text mw).all
      (fun w => (decide (4 ≤ w.length))
        && !(blacklist.contains (str_lower w))) = true)
  ∧ (extract_keywords_list text mw).length ≤ mw
  ∧ ((extract_keywords_list text mw).Sublist (findall_words text.data)
      ∨ extract_keywords_list text mw = List.take mw ["CAST"]) := by
  intro text mw
  by_cases hf : ((findall_words text.data).filter
      (fun w => !(blacklist.contains (str_lower w)))).isEmpty
  · have hks : extract_keywords_list text mw = List.take mw ["CAST"] := by
      simp only [extract_keywords_list, hf, if_true]
    refine ⟨?_, ?_, Or.inr hks⟩
    · rw [hks]
      rw [List.all_eq_true]
      intro w hw
      have hw2 := List.mem_of_mem_take hw
      rw [List.mem_singleton] at hw2
      subst hw2
      decide
    · rw [hks]
      exact List.length_take_le mw _
  · have hks : extract_keywords_list text mw
        = ((findall_words text.data).filter
            (fun w => !(blacklist.contains (str_lower w)))).take mw := by
      rw [Bool.not_eq_true] at hf
      simp only [extract_keywords_list, hf, Bool.false_eq_true, if_false]
    refine ⟨?_, ?_, Or.inl ?_⟩
    · rw [hks, List.all_eq_true]
      intro w hw
      have hw2 := List.mem_of_mem_take hw
      rw [List.mem_filter] at hw2
      have hlen : 4 ≤ w.length := by
        apply findall_aux_length _ _ _ hw2.1
      rw [Bool.and_eq_true, decide_eq_true_eq]
      exact ⟨hlen, hw2.2⟩
    · rw [hks]
      exact List.length_take_le mw _
    · rw [hks]
      exact (List.take_sublist _ _).trans (List.filter_sublist _)

/-- Claim C7 counterexample: a malformed request is not rejected before
adapter calls.  With ticket_id 0 (below the valid minimum 1) the comments
fetch for ticket 0 is still issued, and with an empty query the Zendesk
ticket search is still issued (with the CAST fallback keyword). -/
theorem claim_c7_counterexample :
    analyze_ticket_calls 0 ⟨.error "boom", .error "boom", none, .noClient⟩
      = [AdapterCall.ticketComments 0]
  ∧ search_text_calls "" ⟨.error "boom", none, .noClient⟩
      = [AdapterCall.ticketSearch "type:ticket status:solved (CAST)"]
  ∧ (decide ((1 : Int) ≤ 0) = false)
  ∧ ("".length = 0) := by
  exact ⟨rfl, rfl, rfl, rfl⟩

/-- Claim C7 as amended: no request validation is performed.  Every
ticket-id request, including ticket_id 0, starts with an outbound comments
fetch for that id, and every free-text request, including the empty query,
starts with an outbound Zendesk ticket search (falling back to the CAST
keyword). -/
theorem claim_c7_amended :
    (∀ (inp : AnalyzeInputs),
       (analyze_ticket_calls 0 inp).head?
         = some (AdapterCall.ticketComments 0))
  ∧ (∀ (sinp : SearchInputs),
       (search_text_calls "" sinp).head?
         = some (AdapterCall.ticketSearch (zendesk_query "")))
  ∧ zendesk_query "" = "type:ticket status:solved (CAST)" :=
  ⟨fun _ => rfl, fun _ => rfl, rfl⟩

/-- Claim C8 counterexample: a ticket-store adapter failure (the comments
fetch raising an HTTP error) aborts the whole request: the route returns an
error-shaped payload rather than the normal result schema. -/
theorem claim_c8_counterexample :
    ticket_details "d" 1 ⟨.error "500 Server Error", .ok [], none, .noClient⟩
      = Response.error "500 Server Error"
  ∧ (ticket_details "d" 1
      ⟨.error "500 Server Error", .ok [], none, .noClient⟩).isOk = false :=
  ⟨rfl, rfl⟩

/-- Claim C8 as amended: document-search and summarizer failures degrade in
place (fallback docs, failed-summary marker) and the request completes in
the normal schema, but any ticket-store failure (comments fetch or related
search) aborts the analysis and the route answers with the error-shaped
payload carrying the exception message. -/
theorem claim_c8_amended :
    (∀ (s : String) (tid : Int) (msg : String)
       (so : Except String (List ZSearchResult))
       (ddg : Option (List DdgResult)) (ai : AiOutcome),
       ticket_details s tid ⟨.error msg, so, ddg, ai⟩ = Response.error msg)
  ∧ (∀ (s : String) (tid : Int) (cs : List ZComment) (msg : String)
       (ddg : Option (List DdgResult)) (ai : AiOutcome),
       ticket_details s tid ⟨.ok cs, .error msg, ddg, ai⟩
         = Response.error msg)
  ∧ (∀ (s : String) (tid : Int) (cs : List ZComment)
       (res : List ZSearchResult) (e : String),
       (ticket_details s tid ⟨.ok cs, .ok res, none, .failed e⟩).isOk = true
       ∧ related_docs_of
           (analyze_ticket s tid ⟨.ok cs, .ok res, none, .failed e⟩)
           = some fallback_docs
       ∧ summary_of
           (analyze_ticket s tid ⟨.ok cs, .ok res, none, .failed e⟩)
           = some "[AI analysis failed]") :=
  ⟨fun _ _ _ _ _ _ => rfl, fun _ _ _ _ _ _ => rfl,
   fun _ _ _ _ _ => ⟨rfl, rfl, rfl⟩⟩

/-- Claim C9 counterexample: with a non-empty comment thread and the
generative summarizer absent (no configured key), the summary field is the
fixed skipped marker; it is neither built from the extracted comment bodies
nor the literal no-discussion placeholder the claim requires. -/
theorem claim_c9_counterexample :
    get_ticket_comments (.ok [⟨some "The database crashed"⟩])
      = .ok "The database crashed"
  ∧ summary_of (analyze_ticket "d" 5
      ⟨.ok [⟨some "The database crashed"⟩], .ok [], none, .noClient⟩)
      = some "[AI analysis skipped]"
  ∧ (decide (("[AI analysis skipped]" : String) = "no discussion found")
      = false)
  ∧ (decide (("[AI analysis skipped]" : String) = "The database crashed")
      = false) :=
  ⟨rfl, rfl, by decide, by decide⟩

/-- Claim C9 as amended: the summary field always carries the ai_analyze
summary, never text built from comment bodies and never a no-discussion
placeholder: the skipped marker when no provider key is configured, the
failed marker on provider failure, and the parsed Summary section (or whole
completion text) on success. -/
theorem claim_c9_amended :
    (ai_analyze .noClient
      = { summary := "[AI analysis skipped]", resolution := "" })
  ∧ (∀ (e : String), ai_analyze (.failed e)
      = { summary := "[AI analysis failed]", resolution := e })
  ∧ (∀ (s : String) (tid : Int) (cs : List ZComment)
       (res : List ZSearchResult) (ddg : Option (List DdgResult))
       (ai : AiOutcome),
       summary_of (analyze_ticket s tid ⟨.ok cs, .ok res, ddg, ai⟩)
         = some (ai_analyze ai).summary) :=
  ⟨rfl, fun _ => rfl, fun _ _ _ _ _ _ => rfl⟩

/-- Claim C10: for every request that completes normally, in either mode,
the confidence is one of exactly the four values 0.4, 0.55, 0.7 and 0.85 —
each of them attainable — so it is at least 0.4 even with no corroborating
evidence and, the related-tickets list being capped at 3, never reaches the
0.9 ceiling. -/
theorem claim_c10_confidence_values :
    (∀ (s : String) (tid : Int) (cs : List ZComment)
       (res : List ZSearchResult) (ddg : Option (List DdgResult))
       (ai : AiOutcome),
       confidence_of (analyze_ticket s tid ⟨.ok cs, .ok res, ddg, ai⟩)
         ∈ [some ((2:ℚ)/5), some (11/20), some (7/10), some (17/20)])
  ∧ (∀ (s query : String) (res : List ZSearchResult)
       (ddg : Option (List DdgResult)) (ai : AiOutcome),
       tconfidence_of (search_text s query ⟨.ok res, ddg, ai⟩)
         ∈ [some ((2:ℚ)/5), some (11/20), some (7/10), some (17/20)])
  ∧ (([(2:ℚ)/5, 11/20, 7/10, 17/20].all
       (fun q => (decide ((2:ℚ)/5 ≤ q)) && (decide (q < 9/10)))) = true)
  ∧ (∃ inp, confidence_of (analyze_ticket "d" 1 inp) = some ((2:ℚ)/5))
  ∧ (∃ inp, confidence_of (analyze_ticket "d" 1 inp) = some (11/20))
  ∧ (∃ inp, confidence_of (analyze_ticket "d" 1 inp) = some (7/10))
  ∧ (∃ inp, confidence_of (analyze_ticket "d" 1 inp) = some (17/20)) := by
  have key : ∀ (s : String) (res : List ZSearchResult) (tid : Int),
      some (round2 (min ((2:ℚ)/5
        + ((related_from_results s res tid).length : ℚ) * (3/20)) (9/10)))
        ∈ [some ((2:ℚ)/5), some (11/20), some (7/10), some (17/20)] := by
    intro s res tid
    have hk : (related_from_results s res tid).length ≤ 3 :=
      related_from_results_length s res tid
    set k := (related_from_results s res tid).length with hkdef
    interval_cases k
    · rw [round2_val0]; simp
    · rw [round2_val1]; simp
    · rw [round2_val2]; simp
    · rw [round2_val3]; simp
  refine ⟨fun s tid cs res ddg ai => ?_, fun s query res ddg ai => ?_,
    ?_, ?_, ?_, ?_, ?_⟩
  · have hred : confidence_of (analyze_ticket s tid ⟨.ok cs, .ok res, ddg, ai⟩)
        = some (round2 (min ((2:ℚ)/5
            + ((related_from_results s res tid).length : ℚ) * (3/20))
            (9/10))) := rfl
    rw [hred]
    exact key s res tid
  · have hred : tconfidence_of (search_text s query ⟨.ok res, ddg, ai⟩)
        = some (round2 (min ((2:ℚ)/5
            + ((related_from_results s res (-1)).length : ℚ) * (3/20))
            (9/10))) := rfl
    rw [hred]
    exact key s res (-1)
  · simp only [List.all_cons, List.all_nil, Bool.and_true, Bool.and_eq_true,
      decide_eq_true_eq]
    norm_num
  · refine ⟨⟨.ok [], .ok [], none, .noClient⟩, ?_⟩
    have hred : confidence_of (analyze_ticket "d" 1 ⟨.ok [], .ok [], none, .noClient⟩)
        = some (round2 (min ((2:ℚ)/5 + ((0:ℕ) : ℚ) * (3/20)) (9/10))) := rfl
    rw [hred, round2_val0]
  · refine ⟨⟨.ok [], .ok [⟨2, none⟩], none, .noClient⟩, ?_⟩
    have hred : confidence_of (analyze_ticket "d" 1
        ⟨.ok [], .ok [⟨2, none⟩], none, .noClient⟩)
        = some (round2 (min ((2:ℚ)/5 + ((1:ℕ) : ℚ) * (3/20)) (9/10))) := rfl
    rw [hred, round2_val1]
  · refine ⟨⟨.ok [], .ok [⟨2, none⟩, ⟨3, none⟩], none, .noClient⟩, ?_⟩
    have hred : confidence_of (analyze_ticket "d" 1
        ⟨.ok [], .ok [⟨2, none⟩, ⟨3, none⟩], none, .noClient⟩)
        = some (round2 (min ((2:ℚ)/5 + ((2:ℕ) : ℚ) * (3/20)) (9/10))) := rfl
    rw [hred, round2_val2]
  · refine ⟨⟨.ok [], .ok [⟨2, none⟩, ⟨3, none⟩, ⟨4, none⟩], none, .noClient⟩, ?_⟩
    have hred : confidence_of (analyze_ticket "d" 1
        ⟨.ok [], .ok [⟨2, none⟩, ⟨3, none⟩, ⟨4, none⟩], none, .noClient⟩)
        = some (round2 (min ((2:ℚ)/5 + ((3:ℕ) : ℚ) * (3/20)) (9/10))) := rfl
    rw [hred, round2_val3]
